import Mathlib

/-!
Verification development for the `openresearch` repository.

Part 1 embeds the single source file `src/zlibrary_login.py` as a pure
function from an environment (which fallible steps succeed) to an exit
code and a trace of observable events, following the source line by line.

Part 2 models, from the design specification's words, the components the
spec describes but whose code is not under `src/` (the Lock Store, the
Skip Registry, the Login Verifier and the Login Orchestrator state
machine), and proves the spec's contracts about them.
-/

namespace ZLib

/-- Observable events of a run of `zlibrary_login`.  Console banner
printing is presentation-layer and is elided; the error print of the
`except` handler is kept because claims refer to it.  `writeSkipMarker`
is in the vocabulary because the specification mandates such an event;
the embedded code never emits it. -/
inductive Ev where
  | mkdirConfig : Ev
  | chmodConfig : Nat → Ev
  | launchBrowser : Ev
  | gotoPage : Ev
  | promptInput : Ev
  | saveState : Ev
  | chmodState : Nat → Ev
  | printError : Ev
  | writeSkipMarker : String → Ev
  | closeBrowser : Ev
deriving DecidableEq, Repr

/-- Which of the three fallible operations inside the `try` block of
`zlibrary_login` succeed: `page.goto`, `input(...)`, and
`browser.storage_state(path=...)`.  An ordinary exception at one of these
points is the `false` case. -/
structure Env where
  gotoOk : Bool
  inputOk : Bool
  saveOk : Bool
deriving DecidableEq, Repr

/-- The `try`/`except`/`finally` body of `zlibrary_login`, after the
browser has been launched: navigate, wait for the user, save the session
state and chmod it; any ordinary exception is caught and printed; the
`finally` clause closes the browser on every path. -/
def tryBody (e : Env) : List Ev :=
  (if e.gotoOk then
    [Ev.gotoPage] ++
    (if e.inputOk then
      [Ev.promptInput] ++
      (if e.saveOk then [Ev.saveState, Ev.chmodState 0o600]
       else [Ev.printError])
     else [Ev.printError])
   else [Ev.printError]) ++ [Ev.closeBrowser]

/-- `zlibrary_login()`: create `~/.zlibrary` (if absent) with mode 0o700,
launch the persistent browser context on the shared profile directory,
then run the guarded interactive body.  The function returns normally on
every path (exceptions are swallowed by the `except` clause). -/
def zlibrary_login (e : Env) : List Ev :=
  [Ev.mkdirConfig, Ev.chmodConfig 0o700, Ev.launchBrowser] ++ tryBody e

/-- The module import guard: `sys.exit(1)` when Playwright is missing. -/
inductive ImportStatus where
  | ok : ImportStatus
  | missingPlaywright : ImportStatus
deriving DecidableEq, Repr

/-- The whole program bound to the process: the import guard, then
`main()` which calls `zlibrary_login()` and returns.  The result is the
process exit code paired with the event trace.  A run that gets past
the guard always exits 0: no `sys.exit` appears in the flow. -/
def program (imp : ImportStatus) (e : Env) : Nat × List Ev :=
  match imp with
  | ImportStatus.missingPlaywright => (1, [])
  | ImportStatus.ok => (0, zlibrary_login e)

/-- Is the event a skip-marker write (of any reason)? -/
def isSkipWrite : Ev → Bool
  | Ev.writeSkipMarker _ => true
  | _ => false

end ZLib

namespace Spec

/-- Modelled from the spec: the owner metadata persisted inside a lock
marker by a successful `acquire` (process id, acquisition timestamp, and
an opaque requester identifier).  The Lock Store code is not under
`src/`; only the spec describes it. -/
structure OwnerMeta where
  pid : Nat
  timestamp : Nat
  requester : String
deriving DecidableEq, Repr

/-- Modelled from the spec: the Lock Store state — one marker artifact
per held lock name, holding its owner metadata.  Existence of the marker
is the sole source of truth for "held". -/
abbrev LockState : Type := List (String × OwnerMeta)

/-- Modelled from the spec: `isLocked(name)` — inspection, no mutation. -/
def isLocked (s : LockState) (name : String) : Bool :=
  s.any (fun x => x.1 == name)

/-- Modelled from the spec: `acquire(name, requester)` — atomic,
exclusive creation of the lock marker; returns true iff this call
created it (no other holder existed at the instant of the call); the
marker persists the owner metadata.  Each call is one atomic step, so an
interleaving of concurrent callers is a sequence of these steps. -/
def acquire (s : LockState) (name : String) (m : OwnerMeta) :
    Bool × LockState :=
  if isLocked s name then (false, s) else (true, (name, m) :: s)

/-- Modelled from the spec: `release(name)` — removes the marker
unconditionally if present, returning true iff something was removed;
ownership is not checked. -/
def release (s : LockState) (name : String) : Bool × LockState :=
  if isLocked s name then (true, s.filter (fun x => x.1 != name))
  else (false, s)

/-- A sequence of atomic `acquire` steps on one name (an interleaving of
concurrent acquire attempts, one entry of metadata per attempt),
returning each attempt's result in order. -/
def acquireAll (s : LockState) (name : String) :
    List OwnerMeta → List Bool
  | [] => []
  | m :: ms =>
    (acquire s name m).1 :: acquireAll (acquire s name m).2 name ms

/-- Modelled from the spec: domain names are sanitized to be safe as
storage keys (reserved path separators and colon characters replaced). -/
def sanitize (d : String) : String :=
  String.mk (d.data.map (fun c =>
    if c == '/' || c == '\\' || c == ':' then '_' else c))

/-- Modelled from the spec: the Skip Registry state — one marker per
skipped domain (sanitized), holding the reason string.  The Skip
Registry code is not under `src/`; only the spec describes it. -/
abbrev SkipState : Type := List (String × String)

/-- Modelled from the spec: `isSkipped(domain)`. -/
def isSkipped (s : SkipState) (d : String) : Bool :=
  s.any (fun x => x.1 == sanitize d)

/-- Modelled from the spec: `markSkipped(domain, reason)`. -/
def markSkipped (s : SkipState) (d reason : String) : SkipState :=
  (sanitize d, reason) :: s

/-- Modelled from the spec: `clearSkipped(domain)` — removes the marker
if present, returning whether something was removed. -/
def clearSkipped (s : SkipState) (d : String) : Bool × SkipState :=
  if isSkipped s d then (true, s.filter (fun x => x.1 != sanitize d))
  else (false, s)

/-- Operations that may happen to the Skip Registry over time; a login
verification is recorded as an event to state that it has no effect on
the registry. -/
inductive SkipOp where
  | mark : String → String → SkipOp
  | clear : String → SkipOp
  | verifyLogin : String → Bool → SkipOp
deriving DecidableEq, Repr

/-- Effect of one operation on the Skip Registry. -/
def applySkipOp (s : SkipState) : SkipOp → SkipState
  | SkipOp.mark d r => markSkipped s d r
  | SkipOp.clear d => (clearSkipped s d).2
  | SkipOp.verifyLogin _ _ => s

/-- Effect of a sequence of operations on the Skip Registry. -/
def applySkipOps (s : SkipState) (ops : List SkipOp) : SkipState :=
  ops.foldl applySkipOp s

/-- Does the operation clear the marker of domain `d`? -/
def opClears (d : String) : SkipOp → Bool
  | SkipOp.clear e => sanitize e == sanitize d
  | _ => false

/-- Modelled from the spec: terminal outcomes of the Login Orchestrator
state machine. -/
inductive Outcome where
  | success : Outcome
  | skipped : Outcome
  | timeoutDeclined : Outcome
  | failed : Outcome
deriving DecidableEq, Repr

/-- Modelled from the spec: the documented exit code of each terminal
outcome of the login flow. -/
def Outcome.exitCode : Outcome → Nat
  | Outcome.success => 0
  | Outcome.skipped => 1
  | Outcome.timeoutDeclined => 2
  | Outcome.failed => 3

/-- Modelled from the spec: the nondeterministic inputs of one
orchestrator run — whether verification already succeeds, how the lock
acquisitions and the bounded wait turn out, and the verification result
of each interactive attempt (a missing entry is a failed attempt). -/
structure OrchEnv where
  alreadyLoggedIn : Bool
  firstAcquireOk : Bool
  waitReleasedInTime : Bool
  loggedInAfterWait : Bool
  secondAcquireOk : Bool
  attemptVerified : List Bool
deriving DecidableEq, Repr

/-- Result of one orchestrator run: terminal outcome, the Skip Registry
state afterwards, and how many interactive attempts were consumed. -/
structure OrchResult where
  outcome : Outcome
  skips : SkipState
  attemptsUsed : Nat
deriving DecidableEq, Repr

/-- Run interactive attempts until one verifies or the attempt budget is
exhausted; returns whether an attempt verified and how many attempts
were consumed. -/
def attemptsLoop : Nat → List Bool → Bool × Nat
  | 0, _ => (false, 0)
  | n + 1, rs =>
    if rs.headD false then (true, 1)
    else ((attemptsLoop n rs.tail).1, (attemptsLoop n rs.tail).2 + 1)

/-- Modelled from the spec: the `INTERACTIVE_LOGIN`/`VERIFY` loop — up to
`maxAttempts` attempts; success terminates with Success; exhaustion
writes the skip marker with reason "login timeout or declined" and
terminates with Timeout/Declined. -/
def interactivePhase (maxAttempts : Nat) (skips : SkipState) (d : String)
    (rs : List Bool) : OrchResult :=
  if (attemptsLoop maxAttempts rs).1 then
    ⟨Outcome.success, skips, (attemptsLoop maxAttempts rs).2⟩
  else
    ⟨Outcome.timeoutDeclined,
     markSkipped skips d "login timeout or declined",
     (attemptsLoop maxAttempts rs).2⟩

/-- Modelled from the spec: the Login Orchestrator state machine of
§4.4 — `CHECK_SKIP`, `CHECK_LOGGED_IN`, `ACQUIRE_LOCK` (with one bounded
`WAIT_LOCK` and one re-check / re-acquire), the interactive attempt
loop, and the terminal outcomes.  The Orchestrator code is not under
`src/`; only the spec describes it. -/
def orchestrate (maxAttempts : Nat) (skips : SkipState) (d : String)
    (e : OrchEnv) : OrchResult :=
  if isSkipped skips d then ⟨Outcome.skipped, skips, 0⟩
  else if e.alreadyLoggedIn then ⟨Outcome.success, skips, 0⟩
  else if e.firstAcquireOk then
    interactivePhase maxAttempts skips d e.attemptVerified
  else if !e.waitReleasedInTime then ⟨Outcome.failed, skips, 0⟩
  else if e.loggedInAfterWait then ⟨Outcome.success, skips, 0⟩
  else if e.secondAcquireOk then
    interactivePhase maxAttempts skips d e.attemptVerified
  else ⟨Outcome.failed, skips, 0⟩

/-- Does the first list lead the second (character-wise)? -/
def listStarts : List Char → List Char → Bool
  | [], _ => true
  | _ :: _, [] => false
  | a :: as, b :: bs => a == b && listStarts as bs

/-- Does the needle occur as a contiguous run inside the haystack? -/
def listHasSub (needle : List Char) : List Char → Bool
  | [] => needle.isEmpty
  | c :: cs => listStarts needle (c :: cs) || listHasSub needle cs

/-- Substring test on strings. -/
def strHasSub (hay needle : String) : Bool :=
  listHasSub needle.data hay.data

/-- Does `hay` start with `lead`? -/
def strLeads (hay lead : String) : Bool :=
  listStarts lead.data hay.data

/-- Does `hay` end with `tail`? -/
def strEnds (hay tail : String) : Bool :=
  listStarts tail.data.reverse hay.data.reverse

/-- Lower-case a string character-wise. -/
def lowerStr (s : String) : String :=
  String.mk (s.data.map Char.toLower)

/-- Modelled from the spec: the symmetric domain-matching rule used
throughout — `A` matches `B` iff `A == B`, or `A` ends with `"." ++ B`,
or `B` ends with `"." ++ A`. -/
def domainMatches (a b : String) : Bool :=
  a == b || strEnds a ("." ++ b) || strEnds b ("." ++ a)

/-- Modelled from the spec: matching of a cookie's stored domain
attribute against the queried domain in the generic fallback — exact;
dot-prefixed wildcard (the domain ends with the wildcard, or equals it
minus the leading dot); or the symmetric suffix (superdomain)
relation. -/
def cookieDomainMatches (cd dom : String) : Bool :=
  cd == dom
  || (strLeads cd "." && (strEnds dom cd || cd == "." ++ dom))
  || strEnds cd ("." ++ dom)
  || strEnds dom ("." ++ cd)

/-- A cookie record of the session-state document. -/
structure Cookie where
  name : String
  value : String
  domain : String
deriving DecidableEq, Repr

/-- One key/value entry of an origin's local storage. -/
structure StorageItem where
  name : String
  value : String
deriving DecidableEq, Repr

/-- Per-origin local storage of the session-state document. -/
structure OriginState where
  origin : String
  localStorage : List StorageItem
deriving DecidableEq, Repr

/-- Modelled from the spec: the session-state document — cookies plus
per-origin local-storage maps. -/
structure SessionState where
  cookies : List Cookie
  origins : List OriginState
deriving DecidableEq, Repr

/-- Modelled from the spec: a static site login profile — related
domains, required cookie names (empty = no exact rule), and fallback
cookie-name patterns. -/
structure SiteProfile where
  site : String
  domains : List String
  requiredCookies : List String
  cookieNamePatterns : List String
deriving DecidableEq, Repr

/-- Modelled from the spec: the Login Verifier configuration — the site
profiles, the generic auth-substring sets for cookie names and for
local-storage keys, the minimum trusted value length, and the minimum
number of auth signals. -/
structure VerifierConfig where
  profiles : List SiteProfile
  authCookiePatterns : List String
  authStoragePatterns : List String
  minValueLen : Nat
  minSignals : Nat
deriving DecidableEq, Repr

/-- Modelled from the spec: a cookie counts as an auth signal iff its
stored domain matches the queried domain, its name (case-insensitive)
contains one of the configured substrings, and its value length meets
the minimum threshold. -/
def isAuthCookie (cfg : VerifierConfig) (dom : String) (c : Cookie) :
    Bool :=
  cookieDomainMatches c.domain dom
  && cfg.authCookiePatterns.any (fun p => strHasSub (lowerStr c.name) p)
  && decide (cfg.minValueLen ≤ c.value.length)

/-- Modelled from the spec: a local-storage entry is scored the same way
as a cookie, against the separate key-pattern set. -/
def isAuthStorageItem (cfg : VerifierConfig) (it : StorageItem) : Bool :=
  cfg.authStoragePatterns.any (fun p => strHasSub (lowerStr it.name) p)
  && decide (cfg.minValueLen ≤ it.value.length)

/-- The auth cookies found for a domain by the generic fallback. -/
def authCookieCount (cfg : VerifierConfig) (st : SessionState)
    (dom : String) : Nat :=
  (st.cookies.filter (isAuthCookie cfg dom)).length

/-- The auth local-storage keys found for a domain: entries of origins
containing the domain, scored against the key-pattern set. -/
def authStorageCount (cfg : VerifierConfig) (st : SessionState)
    (dom : String) : Nat :=
  ((st.origins.filter (fun o => strHasSub o.origin dom)).map
    (fun o => (o.localStorage.filter (isAuthStorageItem cfg)).length)).sum

/-- Does the queried domain match one of a profile's domains? -/
def profileMatches (dom : String) (pr : SiteProfile) : Bool :=
  pr.domains.any (fun pd => domainMatches dom pd)

/-- Cookies collected across a profile's domain set. -/
def collectProfileCookies (st : SessionState) (pr : SiteProfile) :
    List Cookie :=
  st.cookies.filter (fun c =>
    pr.domains.any (fun pd => domainMatches c.domain pd))

/-- Modelled from the spec: the exact-site rule — if required cookie
names are configured, logged-in iff all are present; otherwise logged-in
iff some collected cookie name matches a profile pattern. -/
def profileLoggedIn (st : SessionState) (pr : SiteProfile) : Bool :=
  if pr.requiredCookies.isEmpty then
    (collectProfileCookies st pr).any (fun c =>
      pr.cookieNamePatterns.any (fun p => strHasSub (lowerStr c.name) p))
  else
    pr.requiredCookies.all (fun rc =>
      (collectProfileCookies st pr).any (fun c => c.name == rc))

/-- The verifier's result: the decision plus the generic signal count
(0 when an exact profile rule decided). -/
structure LoginCheck where
  loggedIn : Bool
  signalCount : Nat
deriving DecidableEq, Repr

/-- Modelled from the spec: `checkDomainLogin(sessionState, domain)` —
first match wins: the exact-site rule when some profile's domain set
matches the domain, else the generic fallback counting auth cookies and
auth local-storage keys against the configured minimum. -/
def checkDomainLogin (cfg : VerifierConfig) (st : SessionState)
    (dom : String) : LoginCheck :=
  match cfg.profiles.find? (profileMatches dom) with
  | some pr => ⟨profileLoggedIn st pr, 0⟩
  | none =>
    ⟨decide (cfg.minSignals ≤
        authCookieCount cfg st dom + authStorageCount cfg st dom),
     authCookieCount cfg st dom + authStorageCount cfg st dom⟩

/-- Modelled from the spec: the built-in default configuration — no
profile match assumed for unknown domains, the documented example
auth-substring sets, value-length threshold 10, and signal minimum 1. -/
def defaultConfig : VerifierConfig :=
  ⟨[],
   ["session", "token", "auth", "jwt", "sid", "login", "user"],
   ["token", "auth", "session", "jwt", "user"],
   10, 1⟩

end Spec

namespace Spec

/-- An `acquire` on a held name fails and leaves the state unchanged. -/
theorem acquire_held (s : LockState) (name : String) (m : OwnerMeta)
    (h : isLocked s name = true) : acquire s name m = (false, s) := by
  simp [acquire, h]

/-- While a name stays held, every attempt in a run of acquires fails. -/
theorem acquireAll_held (name : String) :
    ∀ (ms : List OwnerMeta) (s : LockState),
      isLocked s name = true →
      acquireAll s name ms = ms.map (fun _ => false) := by
  intro ms
  induction ms with
  | nil => intro s _; rfl
  | cons m ms ih =>
    intro s hs
    simp [acquireAll, acquire_held s name m hs, ih s hs]

/-- A successful `acquire` leaves the name held. -/
theorem isLocked_after_acquire (s : LockState) (name : String)
    (m : OwnerMeta) (h : isLocked s name = false) :
    isLocked (acquire s name m).2 name = true := by
  have h' : s.any (fun x => x.1 == name) = false := h
  simp [acquire, isLocked, h']

/-- After removing every marker of a name, the name is not held. -/
theorem isLocked_filter (s : LockState) (name : String) :
    isLocked (s.filter (fun x => x.1 != name)) name = false := by
  induction s with
  | nil => rfl
  | cons x xs ih =>
    rw [List.filter_cons]
    cases hx : (x.1 == name) with
    | true =>
      have hb : (x.1 != name) = false := by simp [bne, hx]
      rw [hb, if_neg Bool.false_ne_true]
      exact ih
    | false =>
      have hb : (x.1 != name) = true := by simp [bne, hx]
      rw [hb, if_pos rfl]
      simp [isLocked, hx, ih]

/-- Entries of a surviving key are preserved by filtering out another
key. -/
theorem any_key_filter (k k' : String) (hne : k ≠ k') :
    ∀ s : List (String × String),
      s.any (fun x => x.1 == k) = true →
      (s.filter (fun x => x.1 != k')).any (fun x => x.1 == k) = true := by
  intro s
  induction s with
  | nil => intro h; exact absurd h (by simp)
  | cons x xs ih =>
    intro h
    rw [List.filter_cons]
    cases hx : (x.1 == k) with
    | true =>
      have hx' : x.1 = k := by simpa using hx
      have hk' : (x.1 != k') = true := by simp [bne, hx', hne]
      rw [hk', if_pos rfl]
      simp [hx]
    | false =>
      have hxs : xs.any (fun x => x.1 == k) = true := by
        simpa [hx] using h
      cases hkeep : (x.1 != k') with
      | true => rw [if_pos rfl]; simp [ih hxs]
      | false =>
        simpa using ih hxs

/-- One Skip Registry operation that does not clear domain `d` preserves
the skip marker for `d`. -/
theorem isSkipped_applyOp (s : SkipState) (d : String) (op : SkipOp)
    (h : isSkipped s d = true) (hop : opClears d op = false) :
    isSkipped (applySkipOp s op) d = true := by
  cases op with
  | mark e r =>
    have h' : s.any (fun x => x.1 == sanitize d) = true := h
    simp [applySkipOp, markSkipped, isSkipped, h']
  | clear e =>
    have hne : sanitize d ≠ sanitize e := by
      intro hh
      simp [opClears, hh] at hop
    simp only [applySkipOp, clearSkipped]
    cases hsk : isSkipped s e with
    | false =>
      rw [if_neg Bool.false_ne_true]
      exact h
    | true =>
      rw [if_pos rfl]
      exact any_key_filter (sanitize d) (sanitize e) hne s h
  | verifyLogin e b => exact h

/-- A sequence of Skip Registry operations none of which clears domain
`d` preserves the skip marker for `d`. -/
theorem isSkipped_applyOps (d : String) :
    ∀ (ops : List SkipOp) (s : SkipState),
      isSkipped s d = true →
      ops.all (fun op => !opClears d op) = true →
      isSkipped (applySkipOps s ops) d = true := by
  intro ops
  induction ops with
  | nil => intro s h _; exact h
  | cons op ops ih =>
    intro s h hall
    simp only [List.all_cons, Bool.and_eq_true] at hall
    obtain ⟨h1, h2⟩ := hall
    have h1' : opClears d op = false := by
      cases hco : opClears d op
      · rfl
      · rw [hco] at h1; exact absurd h1 (by simp)
    exact ih (applySkipOp s op) (isSkipped_applyOp s d op h h1') h2

/-- Marking a domain makes it skipped at once. -/
theorem isSkipped_markSkipped (s : SkipState) (d reason : String) :
    isSkipped (markSkipped s d reason) d = true := by
  simp [isSkipped, markSkipped]

end Spec

/-- C1: claimed, the login-flow process exit code is exactly one of the
documented contract values (0 success, 1 skipped, 2 timeout, 3 failure)
with success and failure distinguishable by exit code.  Refuted on the
code at a concrete input: the run in which the session-state save raises
(an error is printed, so the run is not a success) exits with code 0,
the same exit code as the fully successful run. -/
theorem C1_counterexample :
    (ZLib.program ZLib.ImportStatus.ok ⟨true, true, false⟩).1 = 0
    ∧ (ZLib.program ZLib.ImportStatus.ok
        ⟨true, true, false⟩).2.count ZLib.Ev.printError = 1
    ∧ (ZLib.program ZLib.ImportStatus.ok
        ⟨true, true, true⟩).2.count ZLib.Ev.printError = 0
    ∧ (ZLib.program ZLib.ImportStatus.ok ⟨true, true, false⟩).1 =
      (ZLib.program ZLib.ImportStatus.ok ⟨true, true, true⟩).1 := by
  decide

/-- C1 (amended): the process exit code is 0 on every run that passes
the import guard — whether the interactive flow succeeds or fails — and
1 when the Playwright import is missing; exit codes 2 and 3 never
occur, so success and in-flow failure are not distinguishable by exit
code. -/
theorem C1_exit_codes (g i s : Bool) :
    (ZLib.program ZLib.ImportStatus.ok ⟨g, i, s⟩).1 = 0
    ∧ (ZLib.program ZLib.ImportStatus.missingPlaywright ⟨g, i, s⟩).1
      = 1 :=
  ⟨rfl, rfl⟩

/-- C2: claimed, the session-state snapshot is persisted repeatedly on a
fixed interval throughout the session plus one additional final snapshot
at closure.  Refuted on the code at a concrete input: in the fully
successful run exactly one save event occurs in the whole trace, so
there is no persistence event besides the single final one and no
periodic persistence mechanism exists. -/
theorem C2_counterexample :
    (ZLib.zlibrary_login ⟨true, true, true⟩).count ZLib.Ev.saveState = 1
    ∧ ZLib.zlibrary_login ⟨true, true, true⟩ =
      [ZLib.Ev.mkdirConfig, ZLib.Ev.chmodConfig 448, ZLib.Ev.launchBrowser,
       ZLib.Ev.gotoPage, ZLib.Ev.promptInput, ZLib.Ev.saveState,
       ZLib.Ev.chmodState 384, ZLib.Ev.closeBrowser] := by
  decide

/-- C2 (amended): the session state is persisted at most once per run —
exactly once when navigation, the user wait and the save all succeed,
and that single save happens at session closure (followed only by the
state-file chmod and the browser close); there are no interval
snapshots. -/
theorem C2_single_save (g i s : Bool) :
    ((ZLib.zlibrary_login ⟨g, i, s⟩).count ZLib.Ev.saveState
      = if g && i && s then 1 else 0)
    ∧ (g = true → i = true → s = true →
        ZLib.zlibrary_login ⟨g, i, s⟩ =
          [ZLib.Ev.mkdirConfig, ZLib.Ev.chmodConfig 448,
           ZLib.Ev.launchBrowser, ZLib.Ev.gotoPage, ZLib.Ev.promptInput,
           ZLib.Ev.saveState, ZLib.Ev.chmodState 384,
           ZLib.Ev.closeBrowser]) := by
  cases g <;> cases i <;> cases s <;> exact ⟨by decide, by decide⟩

/-- C2 witness: the amended statement applied at the fully successful
run. -/
theorem C2_witness :
    ZLib.zlibrary_login ⟨true, true, true⟩ =
      [ZLib.Ev.mkdirConfig, ZLib.Ev.chmodConfig 448, ZLib.Ev.launchBrowser,
       ZLib.Ev.gotoPage, ZLib.Ev.promptInput, ZLib.Ev.saveState,
       ZLib.Ev.chmodState 384, ZLib.Ev.closeBrowser] :=
  (C2_single_save true true true).2 rfl rfl rfl

/-- C3: claimed, the flow retries interactive login up to 3 attempts and
on exhaustion writes a skip marker with reason "login timeout or
declined" and exits with code 2.  Refuted on the code at a concrete
input: in the run whose single interactive attempt fails at the user
wait, the trace contains exactly one browser launch and no skip-marker
write, and the process exits 0, not 2. -/
theorem C3_counterexample :
    (ZLib.zlibrary_login ⟨true, false, true⟩).count
      ZLib.Ev.launchBrowser = 1
    ∧ (ZLib.zlibrary_login ⟨true, false, true⟩).countP
      ZLib.isSkipWrite = 0
    ∧ (ZLib.program ZLib.ImportStatus.ok ⟨true, false, true⟩).1 = 0 := by
  decide

/-- C3 (amended): the login flow performs exactly one interactive
attempt per run (no retry loop); on failure no skip marker is ever
written and the process exits 0. -/
theorem C3_single_attempt (g i s : Bool) :
    (ZLib.zlibrary_login ⟨g, i, s⟩).count ZLib.Ev.launchBrowser = 1
    ∧ (ZLib.zlibrary_login ⟨g, i, s⟩).countP ZLib.isSkipWrite = 0
    ∧ (ZLib.program ZLib.ImportStatus.ok ⟨g, i, s⟩).1 = 0 := by
  cases g <;> cases i <;> cases s <;> decide

/-- C4: on every execution path of a run that launched the persistent
browser context on the shared profile directory — success, any in-flow
fault at navigation, at the user wait, or at the save — the context is
closed exactly once, as the final action of the run (the `finally`
clause). -/
theorem C4_release_on_all_paths (g i s : Bool) :
    (ZLib.zlibrary_login ⟨g, i, s⟩).count ZLib.Ev.launchBrowser = 1
    ∧ (ZLib.zlibrary_login ⟨g, i, s⟩).count ZLib.Ev.closeBrowser = 1
    ∧ (ZLib.zlibrary_login ⟨g, i, s⟩).getLast?
      = some ZLib.Ev.closeBrowser := by
  cases g <;> cases i <;> cases s <;> decide

/-- C9: if an ordinary exception is raised at navigation, at the user
input wait, or at the session-state save, the program catches it,
prints exactly one error message, still closes the browser exactly
once, and the process exits with code 0. -/
theorem C9_inflow_errors (g i s : Bool)
    (h : g = false ∨ i = false ∨ s = false) :
    (ZLib.zlibrary_login ⟨g, i, s⟩).count ZLib.Ev.printError = 1
    ∧ (ZLib.zlibrary_login ⟨g, i, s⟩).count ZLib.Ev.closeBrowser = 1
    ∧ (ZLib.program ZLib.ImportStatus.ok ⟨g, i, s⟩).1 = 0 := by
  cases g <;> cases i <;> cases s <;>
    first
      | decide
      | exact absurd h (by decide)

/-- C9 witness: the statement applied at the run whose navigation
fails. -/
theorem C9_witness :
    (ZLib.zlibrary_login ⟨false, true, true⟩).count ZLib.Ev.printError = 1
    ∧ (ZLib.zlibrary_login ⟨false, true, true⟩).count
      ZLib.Ev.closeBrowser = 1
    ∧ (ZLib.program ZLib.ImportStatus.ok ⟨false, true, true⟩).1 = 0 :=
  C9_inflow_errors false true true (Or.inl rfl)

/-- C10: on every run the configuration directory is created (if
absent) and chmod-ed to 0o700 (= 448) before the browser launches; the
state-file chmod to 0o600 (= 384) happens exactly on the runs whose
save succeeds, and there it immediately follows the successful save. -/
theorem C10_permissions (g i s : Bool) :
    (ZLib.zlibrary_login ⟨g, i, s⟩).take 3 =
      [ZLib.Ev.mkdirConfig, ZLib.Ev.chmodConfig 448, ZLib.Ev.launchBrowser]
    ∧ ((ZLib.zlibrary_login ⟨g, i, s⟩).count (ZLib.Ev.chmodState 384)
      = if g && i && s then 1 else 0)
    ∧ (g = true → i = true → s = true →
        ZLib.zlibrary_login ⟨g, i, s⟩ =
          [ZLib.Ev.mkdirConfig, ZLib.Ev.chmodConfig 448,
           ZLib.Ev.launchBrowser, ZLib.Ev.gotoPage] ++
          [ZLib.Ev.promptInput, ZLib.Ev.saveState,
           ZLib.Ev.chmodState 384, ZLib.Ev.closeBrowser]) := by
  cases g <;> cases i <;> cases s <;>
    exact ⟨by decide, by decide, by decide⟩

/-- C10 witness: the statement applied at the fully successful run. -/
theorem C10_witness :
    ZLib.zlibrary_login ⟨true, true, true⟩ =
      [ZLib.Ev.mkdirConfig, ZLib.Ev.chmodConfig 448,
       ZLib.Ev.launchBrowser, ZLib.Ev.gotoPage] ++
      [ZLib.Ev.promptInput, ZLib.Ev.saveState,
       ZLib.Ev.chmodState 384, ZLib.Ev.closeBrowser] :=
  (C10_permissions true true true).2.2 rfl rfl rfl

/-- No attempt in a list of always-failing acquires succeeds. -/
theorem count_true_replicate (n : Nat) :
    (List.replicate n false).count true = 0 := by
  induction n with
  | zero => rfl
  | succ n ih => simpa [List.replicate, List.count_cons] using ih

/-- C5: `acquire(name, requester)` returns true iff no lock marker for
the name existed at the instant of the call, and a successful call
creates the marker; once one acquire succeeds, every further acquire in
any interleaving returns false until a release, so among one-or-more
concurrent acquire attempts from an unheld state exactly one returns
true, and after the winner releases, a subsequent acquire succeeds
again. -/
theorem C5_acquire_exclusive (s : Spec.LockState) (name : String)
    (m : Spec.OwnerMeta) (ms : List Spec.OwnerMeta) :
    ((Spec.acquire s name m).1 = !Spec.isLocked s name)
    ∧ ((Spec.acquire s name m).1 = true →
        Spec.isLocked (Spec.acquire s name m).2 name = true)
    ∧ (Spec.isLocked s name = false →
        (Spec.acquireAll s name (m :: ms)).count true = 1
        ∧ (Spec.acquire
            (Spec.release (Spec.acquire s name m).2 name).2 name m).1
          = true) := by
  refine ⟨?_, ?_, ?_⟩
  · cases hl : Spec.isLocked s name <;> simp [Spec.acquire, hl]
  · intro h
    cases hl : Spec.isLocked s name
    · exact Spec.isLocked_after_acquire s name m hl
    · rw [Spec.acquire_held s name m hl] at h
      exact absurd h (by simp)
  · intro hl
    have hacq : Spec.acquire s name m = (true, (name, m) :: s) := by
      simp [Spec.acquire, hl]
    have hheld : Spec.isLocked ((name, m) :: s) name = true := by
      simp [Spec.isLocked]
    constructor
    · rw [Spec.acquireAll, hacq]
      rw [Spec.acquireAll_held name ms ((name, m) :: s) hheld]
      simp [List.count_cons, count_true_replicate]
    · rw [hacq]
      have hrel : Spec.release ((name, m) :: s) name
          = (true, ((name, m) :: s).filter (fun x => x.1 != name)) := by
        simp [Spec.release, hheld]
      rw [hrel]
      simp [Spec.acquire, Spec.isLocked_filter]

/-- C5 witness: from the empty Lock Store, two concurrent acquires of
the global browser lock produce exactly one winner, and a successful
acquire leaves the lock held. -/
theorem C5_witness :
    (Spec.acquireAll ([] : Spec.LockState) "__browser__"
      [⟨1, 0, "procA"⟩, ⟨2, 0, "procB"⟩]).count true = 1
    ∧ Spec.isLocked
        (Spec.acquire ([] : Spec.LockState) "__browser__"
          ⟨1, 0, "procA"⟩).2 "__browser__" = true :=
  ⟨((C5_acquire_exclusive [] "__browser__" ⟨1, 0, "procA"⟩
      [⟨2, 0, "procB"⟩]).2.2 rfl).1,
   (C5_acquire_exclusive [] "__browser__" ⟨1, 0, "procA"⟩ []).2.1
     (by decide)⟩

/-- C6: `release(name)` returns true iff a marker for the name was
present; releasing an unheld name returns false and leaves the whole
state unchanged; releasing a held name removes the marker, and a second
release of the same hold returns false. -/
theorem C6_release_semantics (s : Spec.LockState) (name : String) :
    ((Spec.release s name).1 = Spec.isLocked s name)
    ∧ (Spec.isLocked s name = false → Spec.release s name = (false, s))
    ∧ (Spec.isLocked s name = true →
        Spec.isLocked (Spec.release s name).2 name = false
        ∧ (Spec.release (Spec.release s name).2 name).1 = false) := by
  refine ⟨?_, ?_, ?_⟩
  · cases hl : Spec.isLocked s name <;> simp [Spec.release, hl]
  · intro hl
    simp [Spec.release, hl]
  · intro hl
    have h2 : (Spec.release s name).2
        = s.filter (fun x => x.1 != name) := by
      simp [Spec.release, hl]
    rw [h2]
    refine ⟨Spec.isLocked_filter s name, ?_⟩
    simp [Spec.release, Spec.isLocked_filter s name]

/-- C6 witness: releasing the never-held global lock returns false with
the state unchanged; after one hold is released the lock is free and a
second release of it returns false. -/
theorem C6_witness :
    Spec.release ([] : Spec.LockState) "__browser__" = (false, [])
    ∧ (Spec.isLocked
        (Spec.release [("__browser__", ⟨1, 0, "procA"⟩)]
          "__browser__").2 "__browser__" = false
       ∧ (Spec.release
            (Spec.release [("__browser__", ⟨1, 0, "procA"⟩)]
              "__browser__").2 "__browser__").1 = false) :=
  ⟨(C6_release_semantics [] "__browser__").2.1 (by decide),
   (C6_release_semantics [("__browser__", ⟨1, 0, "procA"⟩)]
      "__browser__").2.2 (by decide)⟩

/-- C7: once `markSkipped(d)` ran, `isSkipped(d)` stays true across any
sequence of further registry operations — marks of any domain, clears of
other domains, and login-verification results — until a `clearSkipped`
of `d` itself; and whenever the skip marker of `d` is present, the
orchestrator run terminates as Skipped at once, with the registry
untouched and zero interactive login attempts. -/
theorem C7_skip_gate (s : Spec.SkipState) (d reason : String)
    (ops : List Spec.SkipOp) (t : Spec.SkipState) (e : Spec.OrchEnv)
    (n : Nat) :
    (ops.all (fun op => !Spec.opClears d op) = true →
      Spec.isSkipped
        (Spec.applySkipOps (Spec.markSkipped s d reason) ops) d = true)
    ∧ (Spec.isSkipped t d = true →
        Spec.orchestrate n t d e = ⟨Spec.Outcome.skipped, t, 0⟩) := by
  constructor
  · intro hall
    exact Spec.isSkipped_applyOps d ops (Spec.markSkipped s d reason)
      (Spec.isSkipped_markSkipped s d reason) hall
  · intro ht
    simp [Spec.orchestrate, ht]

/-- C7 witness: after marking `example.org`, a verification result and
mark/clear traffic on another domain leave it skipped; and an
orchestrator run on a skipped domain ends Skipped with zero attempts. -/
theorem C7_witness :
    Spec.isSkipped
      (Spec.applySkipOps
        (Spec.markSkipped [] "example.org" "login timeout or declined")
        [Spec.SkipOp.verifyLogin "example.org" true,
         Spec.SkipOp.mark "other.net" "declined",
         Spec.SkipOp.clear "other.net"]) "example.org" = true
    ∧ Spec.orchestrate 3 [(Spec.sanitize "example.org", "declined")]
        "example.org" ⟨false, true, true, false, true, [true]⟩
      = ⟨Spec.Outcome.skipped,
         [(Spec.sanitize "example.org", "declined")], 0⟩ :=
  ⟨(C7_skip_gate [] "example.org" "login timeout or declined"
      [Spec.SkipOp.verifyLogin "example.org" true,
       Spec.SkipOp.mark "other.net" "declined",
       Spec.SkipOp.clear "other.net"] []
      ⟨false, false, false, false, false, []⟩ 0).1 (by decide),
   (C7_skip_gate [] "example.org" "declined" []
      [(Spec.sanitize "example.org", "declined")]
      ⟨false, true, true, false, true, [true]⟩ 3).2 (by decide)⟩

/-- C8: for a domain matched by no configured profile and a
configuration with the default value-length threshold 10 and default
signal minimum 1, `checkDomainLogin` reports logged-in exactly when at
least one signal exists, counting a cookie iff its stored domain matches
the queried domain, its lower-cased name contains a configured
substring, and its value length is at least 10, plus the auth
local-storage keys scored by the separate pattern set. -/
theorem C8_generic_fallback (cfg : Spec.VerifierConfig)
    (st : Spec.SessionState) (dom : String)
    (hprof : cfg.profiles.find? (Spec.profileMatches dom) = none)
    (hlen : cfg.minValueLen = 10) (hmin : cfg.minSignals = 1) :
    (Spec.checkDomainLogin cfg st dom).loggedIn = true ↔
      1 ≤ (st.cookies.filter (fun c =>
            Spec.cookieDomainMatches c.domain dom
            && cfg.authCookiePatterns.any
                (fun p => Spec.strHasSub (Spec.lowerStr c.name) p)
            && decide (10 ≤ c.value.length))).length
        + Spec.authStorageCount cfg st dom := by
  have hc : (st.cookies.filter (fun c =>
        Spec.cookieDomainMatches c.domain dom
        && cfg.authCookiePatterns.any
            (fun p => Spec.strHasSub (Spec.lowerStr c.name) p)
        && decide (10 ≤ c.value.length))).length
      = Spec.authCookieCount cfg st dom := by
    simp only [Spec.authCookieCount]
    apply congrArg List.length
    apply List.filter_congr
    intro c _
    simp [Spec.isAuthCookie, hlen]
  have hM : Spec.checkDomainLogin cfg st dom =
      ⟨decide (cfg.minSignals ≤
          Spec.authCookieCount cfg st dom
          + Spec.authStorageCount cfg st dom),
       Spec.authCookieCount cfg st dom
       + Spec.authStorageCount cfg st dom⟩ := by
    simp [Spec.checkDomainLogin, hprof]
  rw [hc, hM, hmin]
  simp

/-- C8 witness: Scenario B — unknown domain `example.org` with one
cookie `session_id=xyz1234567890` (value length 13 ≥ 10) is reported
logged-in by the generic fallback of the default configuration. -/
theorem C8_witness :
    (Spec.checkDomainLogin Spec.defaultConfig
      ⟨[⟨"session_id", "xyz1234567890", "example.org"⟩], []⟩
      "example.org").loggedIn = true :=
  (C8_generic_fallback Spec.defaultConfig
    ⟨[⟨"session_id", "xyz1234567890", "example.org"⟩], []⟩
    "example.org" rfl rfl rfl).mpr (by decide)
